import Mathlib

/-!
Verification development for the Polymarket orderbook-history inspection
tool (`read_data.py`).  The Python source is shallowly embedded: each
reader becomes a pure Lean function over an abstract file system
(`FS : String → Option FileData`), `print` calls become elements of an
output list, uncaught Python exceptions become an `Option String` error
slot, numeric (Python float) arithmetic is modelled exactly over `ℚ`,
and `json.loads` is modelled by an executable JSON parser.
-/

/-- Character for a single decimal digit (value taken mod 10). -/
def digitChar (n : Nat) : Char := Char.ofNat (48 + n % 10)

/-- Model of the C `%02d` padding used by `strftime` for month, day,
hour, minute and second fields. -/
def pad2 (n : Nat) : String :=
  if n < 100 then String.mk [digitChar (n / 10), digitChar n]
  else toString n

/-- Model of `strftime`'s `%Y` field, zero padded to four digits as in
the Python documentation's examples. -/
def pad4 (n : Nat) : String :=
  if n < 10000 then
    String.mk [digitChar (n / 1000), digitChar (n / 100), digitChar (n / 10), digitChar n]
  else toString n

/-- Python string slicing `s[:n]` (first `n` code points). -/
def pyTake (n : Nat) (s : String) : String := String.mk (s.data.take n)

/-- Python format spec for right-aligning a string in a field of width `w`
(as in the source's `:>4s` and `:>6s` format specs). -/
def padLeft (w : Nat) (s : String) : String :=
  String.mk (List.replicate (w - s.length) ' ') ++ s

/-- Separator bar printed by every reader, Python expression `"="*70`. -/
def eqBar : String := String.mk (List.replicate 70 '=')

/-! Civil-calendar conversion (proleptic Gregorian).  This is the
standard clamped-quotient decomposition of a day number inside a
400-year era (as in C runtime `localtime` implementations); it models
the `datetime.fromtimestamp` + `strftime` pipeline with the collector's
local timezone taken as UTC. -/

/-- Century index (0-3) inside a 400-year era. -/
def centOf (doe : Nat) : Nat := min (doe / 36524) 3

/-- Days remaining after removing whole centuries. -/
def r100Of (doe : Nat) : Nat := doe - 36524 * centOf doe

/-- Four-year-block index inside the century. -/
def quadOf (doe : Nat) : Nat := r100Of doe / 1461

/-- Days remaining inside the four-year block. -/
def r4Of (doe : Nat) : Nat := r100Of doe % 1461

/-- Year index (0-3) inside the four-year block. -/
def yrOf (doe : Nat) : Nat := min (r4Of doe / 365) 3

/-- Day of the March-based year. -/
def doyOf (doe : Nat) : Nat := r4Of doe - 365 * yrOf doe

/-- Year of the 400-year era. -/
def yoeOf (doe : Nat) : Nat := 100 * centOf doe + 4 * quadOf doe + yrOf doe

/-- Shifted month index from day of era. -/
def mpOf (doe : Nat) : Nat := (5 * doyOf doe + 2) / 153

/-- Calendar month (1-12) from day of era. -/
def monthOf (doe : Nat) : Nat := if mpOf doe < 10 then mpOf doe + 3 else mpOf doe - 9

/-- Calendar day of month (1-31) from day of era. -/
def dayOf (doe : Nat) : Nat := doyOf doe - (153 * mpOf doe + 2) / 5 + 1

/-- Civil date (year, month, day) from days since the Unix epoch.
All divisors are positive, so Euclidean division is floored division
here, matching the C conversion. -/
def civilFromDays (z0 : Int) : Int × Nat × Nat :=
  let z := z0 + 719468
  let era := (z / 146097)
  let doe := (z % 146097).toNat
  let m := monthOf doe
  (era * 400 + yoeOf doe + (if m ≤ 2 then 1 else 0), m, dayOf doe)

/-! Model of Python `int(str)` as applied by `format_timestamp`:
optional surrounding whitespace, an optional sign, then a nonempty run
of ASCII digits in which single underscores may appear between digits. -/

/-- Whitespace characters stripped by Python `int`/`float` conversion. -/
def isPyWs (c : Char) : Bool :=
  c = ' ' || c = '\t' || c = '\n' || c = '\r' || c = '\x0b' || c = '\x0c'

/-- Value of an ASCII digit, if the character is one. -/
def digitVal (c : Char) : Option Nat :=
  if '0' ≤ c && c ≤ '9' then some (c.toNat - 48) else none

/-- Digit run of a Python integer literal: the first character is known
to be a digit; an underscore must be followed by a digit. -/
def digitsCore (acc : Nat) : List Char → Option Nat
  | [] => some acc
  | c :: rest =>
    match digitVal c with
    | some d => digitsCore (acc * 10 + d) rest
    | none =>
      if c = '_' then
        match rest with
        | r :: rs =>
          match digitVal r with
          | some d => digitsCore (acc * 10 + d) rs
          | none => none
        | [] => none
      else none

/-- Strip Python-style whitespace from both ends of a character list. -/
def pyStrip (cs : List Char) : List Char :=
  ((cs.dropWhile isPyWs).reverse.dropWhile isPyWs).reverse

/-- Model of Python `int(s)` for a string argument; `none` models a
raised `ValueError`. -/
def pyParseInt (s : String) : Option Int :=
  match pyStrip s.data with
  | [] => none
  | c :: rest =>
    let sign : Int := if c = '-' then -1 else 1
    let ds := if c = '-' || c = '+' then rest else c :: rest
    match ds with
    | [] => none
    | d :: _ =>
      if (digitVal d).isSome then
        match digitsCore 0 ds with
        | some n => some (sign * n)
        | none => none
      else none

/-- Render a civil date and a second-of-day in the source's
`strftime` format `%Y-%m-%d %H:%M:%S`. -/
def renderCivil (y : Int) (m d sod : Nat) : String :=
  pad4 y.toNat ++ "-" ++ pad2 m ++ "-" ++ pad2 d ++ " " ++
    pad2 (sod / 3600) ++ ":" ++ pad2 (sod % 3600 / 60) ++ ":" ++ pad2 (sod % 60)

/-- Calendar rendering of a count of seconds since the Unix epoch. -/
def renderEpochSeconds (secs : Int) : String :=
  let c := civilFromDays ((secs / 86400))
  renderCivil c.1 c.2.1 c.2.2 (secs % 86400).toNat

/-- Year reached by a millisecond timestamp; `datetime.fromtimestamp`
raises unless it lies in 1..9999. -/
def tsYear (v : Int) : Int :=
  (civilFromDays ((v / 1000 / 86400))).1

/-- Decidable success condition of the `datetime.fromtimestamp` call
for the parsed integer value `v` (milliseconds). -/
def tsInRange (v : Int) : Bool := decide (1 ≤ tsYear v ∧ tsYear v ≤ 9999)

/-- Model of `format_timestamp` (src/read_data.py lines 12-18): parse
the text as a Python integer, divide by 1000 and render the local
calendar time (timezone modelled as UTC); on any failure return the
original text unchanged (the bare `except` fallback). -/
def format_timestamp (ts_str : String) : String :=
  match pyParseInt ts_str with
  | none => ts_str
  | some v =>
    if tsInRange v then renderEpochSeconds (v / 1000) else ts_str

/-! Model of decoded JSON values and of `json.loads`.  Numbers are kept
exactly as rationals. -/

/-- Decoded JSON value. -/
inductive JsonV where
  | null : JsonV
  | bool : Bool → JsonV
  | num : ℚ → JsonV
  | str : String → JsonV
  | arr : List JsonV → JsonV
  | obj : List (String × JsonV) → JsonV

/-- JSON whitespace accepted between tokens. -/
def jWs (c : Char) : Bool := c = ' ' || c = '\t' || c = '\n' || c = '\r'

/-- Skip JSON whitespace. -/
def jSkipWs (cs : List Char) : List Char := cs.dropWhile jWs

/-- Value of a hexadecimal digit. -/
def hexVal (c : Char) : Option Nat :=
  if '0' ≤ c && c ≤ '9' then some (c.toNat - 48)
  else if 'a' ≤ c && c ≤ 'f' then some (c.toNat - 87)
  else if 'A' ≤ c && c ≤ 'F' then some (c.toNat - 55)
  else none

/-- Body of a JSON string literal after the opening quote; returns the
decoded characters and the remaining input. -/
def jStrCore (acc : List Char) : List Char → Option (List Char × List Char)
  | [] => none
  | '"' :: rest => some (acc.reverse, rest)
  | '\\' :: e :: rest =>
    if e = '"' then jStrCore ('"' :: acc) rest
    else if e = '\\' then jStrCore ('\\' :: acc) rest
    else if e = '/' then jStrCore ('/' :: acc) rest
    else if e = 'b' then jStrCore ('\x08' :: acc) rest
    else if e = 'f' then jStrCore ('\x0c' :: acc) rest
    else if e = 'n' then jStrCore ('\n' :: acc) rest
    else if e = 'r' then jStrCore ('\r' :: acc) rest
    else if e = 't' then jStrCore ('\t' :: acc) rest
    else if e = 'u' then
      match rest with
      | a :: b :: c :: d :: rs =>
        match hexVal a, hexVal b, hexVal c, hexVal d with
        | some ha, some hb, some hc, some hd =>
          jStrCore (Char.ofNat (((ha * 16 + hb) * 16 + hc) * 16 + hd) :: acc) rs
        | _, _, _, _ => none
      | _ => none
    else none
  | c :: rest => if c.toNat < 32 then none else jStrCore (c :: acc) rest

/-- Maximal run of ASCII digits, with their value and count. -/
def jDigits (acc : Nat) (n : Nat) : List Char → Nat × Nat × List Char
  | [] => (acc, n, [])
  | c :: rest =>
    match digitVal c with
    | some d => jDigits (acc * 10 + d) (n + 1) rest
    | none => (acc, n, c :: rest)

/-- JSON number token (strict JSON grammar), as an exact rational. -/
def jNumber (cs : List Char) : Option (ℚ × List Char) :=
  let (neg, cs1) := match cs with
    | '-' :: rest => (true, rest)
    | _ => (false, cs)
  match cs1 with
  | c :: rest =>
    match digitVal c with
    | none => none
    | some d =>
      let (ip, rest2) : Nat × List Char :=
        if c = '0' then (0, rest)
        else
          let r := jDigits d 1 rest
          (r.1, r.2.2)
      let (mant, rest3) : ℚ × List Char :=
        match rest2 with
        | '.' :: f :: fr =>
          match digitVal f with
          | some fd =>
            let r := jDigits fd 1 fr
            ((ip : ℚ) + (r.1 : ℚ) / ((10 : ℚ) ^ r.2.1), r.2.2)
          | none => ((ip : ℚ), rest2)
        | _ => ((ip : ℚ), rest2)
      let (val, rest4) : Option ℚ × List Char :=
        match rest3 with
        | e :: es =>
          if e = 'e' || e = 'E' then
            let (eneg, es1) := match es with
              | '-' :: t => (true, t)
              | '+' :: t => (false, t)
              | _ => (false, es)
            match es1 with
            | x :: xr =>
              match digitVal x with
              | some xd =>
                let r := jDigits xd 1 xr
                (some (if eneg then mant / (10 : ℚ) ^ r.1 else mant * (10 : ℚ) ^ r.1), r.2.2)
              | none => (none, rest3)
            | [] => (none, rest3)
          else (some mant, rest3)
        | [] => (some mant, rest3)
      match val with
      | some q => some (if neg then -q else q, rest4)
      | none => none
  | [] => none

/-- Match a literal keyword. -/
def jKeyword (kw : List Char) (cs : List Char) : Option (List Char) :=
  if cs.take kw.length = kw then some (cs.drop kw.length) else none

mutual

/-- Fueled recursive-descent parse of one JSON value. -/
def jValueP : Nat → List Char → Option (JsonV × List Char)
  | 0, _ => none
  | fuel + 1, cs =>
    match jSkipWs cs with
    | [] => none
    | '"' :: rest => (jStrCore [] rest).map (fun p => (JsonV.str (String.mk p.1), p.2))
    | '[' :: rest =>
      match jSkipWs rest with
      | ']' :: r2 => some (JsonV.arr [], r2)
      | r2 => (jItemsP fuel r2).map (fun p => (JsonV.arr p.1, p.2))
    | '\x7b' :: rest =>
      match jSkipWs rest with
      | '\x7d' :: r2 => some (JsonV.obj [], r2)
      | r2 => (jFieldsP fuel r2).map (fun p => (JsonV.obj p.1, p.2))
    | 't' :: rest => (jKeyword ['r', 'u', 'e'] rest).map (fun r => (JsonV.bool true, r))
    | 'f' :: rest => (jKeyword ['a', 'l', 's', 'e'] rest).map (fun r => (JsonV.bool false, r))
    | 'n' :: rest => (jKeyword ['u', 'l', 'l'] rest).map (fun r => (JsonV.null, r))
    | cs2 => (jNumber cs2).map (fun p => (JsonV.num p.1, p.2))

/-- Comma-separated array elements up to the closing bracket. -/
def jItemsP : Nat → List Char → Option (List JsonV × List Char)
  | 0, _ => none
  | fuel + 1, cs =>
    match jValueP fuel cs with
    | none => none
    | some (v, rest) =>
      match jSkipWs rest with
      | ',' :: r2 => (jItemsP fuel r2).map (fun p => (v :: p.1, p.2))
      | ']' :: r2 => some ([v], r2)
      | _ => none

/-- Comma-separated object members up to the closing brace. -/
def jFieldsP : Nat → List Char → Option (List (String × JsonV) × List Char)
  | 0, _ => none
  | fuel + 1, cs =>
    match jSkipWs cs with
    | '"' :: rest =>
      match jStrCore [] rest with
      | none => none
      | some (k, r1) =>
        match jSkipWs r1 with
        | ':' :: r2 =>
          match jValueP fuel r2 with
          | none => none
          | some (v, r3) =>
            match jSkipWs r3 with
            | ',' :: r4 => (jFieldsP fuel r4).map (fun p => ((String.mk k, v) :: p.1, p.2))
            | '\x7d' :: r4 => some ([(String.mk k, v)], r4)
            | _ => none
        | _ => none
    | _ => none

end

/-- Model of `json.loads` on one line of input; `none` models a raised
`json.JSONDecodeError`.  In particular a blank or whitespace-only line
is not a JSON document and yields `none`. -/
def json_loads (s : String) : Option JsonV :=
  match jValueP (s.length + 1) s.data with
  | some (v, rest) => if jSkipWs rest = [] then some v else none
  | none => none

/-! Access to decoded objects, following Python dict semantics
(duplicate JSON keys: the last occurrence wins; a missing key raises
`KeyError`; subscripting a non-object record raises `TypeError`). -/

/-- Python `obj[key]` lookup on a decoded JSON object. -/
def jGetField (j : JsonV) (k : String) : Option JsonV :=
  match j with
  | JsonV.obj fields => ((fields.filter (fun p => p.1 = k)).getLast?).map Prod.snd
  | _ => none

/-- Python key membership test `key in obj`. -/
def jHasField (j : JsonV) (k : String) : Bool := (jGetField j k).isSome

/-- Required string-typed field of a record; the error string models
the Python exception that the access or the later string-format spec
would raise. -/
def jGetStr (j : JsonV) (k : String) : Except String String :=
  match j with
  | JsonV.obj _ =>
    match jGetField j k with
    | some (JsonV.str s) => Except.ok s
    | some _ => Except.error "TypeError"
    | none => Except.error ("KeyError: " ++ k)
  | _ => Except.error "TypeError"

/-- Numeric view of a JSON value under Python comparison/format
semantics (`bool` is an `int` subtype in Python). -/
def jNumVal : JsonV → Option ℚ
  | JsonV.num q => some q
  | JsonV.bool b => some (if b then 1 else 0)
  | _ => none

/-! Display formatting of Python floats (modelled exactly over `ℚ`). -/

/-- Round to the nearest integer, ties to even, as C `printf` rounding
of the exact value. -/
def roundHalfEven (q : ℚ) : Int :=
  let f := q.floor
  let r := q - (f : ℚ)
  if r < 1 / 2 then f
  else if 1 / 2 < r then f + 1
  else if f % 2 = 0 then f else f + 1

/-- Python format spec of two fixed decimals (`:.2f`). -/
def fmt2 (q : ℚ) : String :=
  let n := roundHalfEven (q * 100)
  (if n < 0 then "-" else "") ++ toString (n.natAbs / 100) ++ "." ++ pad2 (n.natAbs % 100)

/-- Python format spec `:+.2f` (always-signed two decimals). -/
def fmtPlus2 (q : ℚ) : String :=
  let n := roundHalfEven (q * 100)
  (if n < 0 then "-" else "+") ++ toString (n.natAbs / 100) ++ "." ++ pad2 (n.natAbs % 100)

/-- Group a digit string with thousands separators, for the `,` flag
of a Python format spec. -/
def chunk3 : List Char → List (List Char)
  | [] => []
  | a :: b :: c :: rest@(_ :: _) => [a, b, c] :: chunk3 rest
  | l => [l]

/-- Insert thousands separators into a decimal numeral. -/
def groupThousands (s : String) : String :=
  String.mk (List.intercalate [','] ((chunk3 s.data.reverse).map List.reverse).reverse)

/-- Python format spec `:,.2f` (thousands separators, two decimals). -/
def fmtComma2 (q : ℚ) : String :=
  let n := roundHalfEven (q * 100)
  (if n < 0 then "-" else "") ++ groupThousands (toString (n.natAbs / 100)) ++ "." ++
    pad2 (n.natAbs % 100)

/-- Fractional digits of a rational in `[0,1)`, most significant first,
up to `fuel` digits. -/
def fracDigits (fuel : Nat) (r : ℚ) : List Char :=
  match fuel with
  | 0 => []
  | fuel + 1 =>
    if r = 0 then []
    else
      let r10 := r * 10
      let d := r10.floor
      digitChar d.toNat :: fracDigits fuel (r10 - (d : ℚ))

/-- Display of a Python float by `str` (shortest decimal; exact here
because the model's rationals are exact), used for the fee-percentage
interpolation `f-string` without a format spec. -/
def fmtQ (q : ℚ) : String :=
  let a := |q|
  let ds := fracDigits 17 (a - (a.floor : ℚ))
  (if q < 0 then "-" else "") ++ toString a.floor.natAbs ++ "." ++
    (if ds.isEmpty then "0" else String.mk ds)

/-! Abstract file system and run results. -/

/-- Contents of one data file: its text lines (as iterated by Python
`for line in f`, one element per line) and its size in bytes. -/
structure FileData where
  lines : List String
  sizeBytes : Nat
deriving DecidableEq

/-- Abstract read-only file system: path to contents, `none` when
`os.path.exists` is false. -/
def FS : Type := String → Option FileData

/-- Result of running one reader: the printed lines in order, the
uncaught Python exception if one escaped, the record counter, the
number of `json.loads` calls performed, and the files opened. -/
structure Run where
  out : List String
  err : Option String
  count : Nat
  decodes : Nat
  opened : List String
deriving DecidableEq

/-- Result of `read_trades`, which additionally aggregates volume and
per-side counts. -/
structure TRun where
  out : List String
  err : Option String
  count : Nat
  volume : ℚ
  sides : List (String × Nat)
  decodes : Nat
  opened : List String
deriving DecidableEq

/-- Rendering of an asset identifier by all three record formatters:
the f-string fragment of Python expression `record['asset_id'][:20]`
followed by the literal ellipsis of the format string. -/
def assetIdField (a : String) : String := pyTake 20 a ++ "..."

/-- Python truthiness / break condition `if limit and count >= limit`
guarding each loop iteration (`limit = None` and `limit = 0` are both
falsy, so neither ever stops the loop). -/
def limitReached (limit : Option Int) (count : Nat) : Bool :=
  match limit with
  | none => false
  | some l => !(l == 0) && decide (l ≤ (count : Int))

/-- Error message slot used for a failed `json.loads`. -/
def jsonDecodeErrMsg : String := "JSONDecodeError"

/-! Snapshot reader (src/read_data.py lines 21-69). -/

/-- Movement classification of the snapshot formatter, Python
expression `"UP 📈" if current >= hourly_open else "DOWN 📉"`. -/
def btcMovement (hourly_open current : ℚ) : String :=
  if hourly_open ≤ current then "UP 📈" else "DOWN 📉"

/-- Candle line of the snapshot formatter up to the movement marker,
with the change and the percentage change `(change / open) * 100`. -/
def btcCandleBase (hourly_open current : ℚ) : String :=
  "BTC 1H Candle: Open=$" ++ fmtComma2 hourly_open ++ " Current=$" ++ fmtComma2 current ++
    " (" ++ fmtPlus2 (current - hourly_open) ++ " / " ++
    fmtPlus2 ((current - hourly_open) / hourly_open * 100) ++ "%) "

/-- Hourly-open value chain of line 47:
`snapshot.get('btc_price_hourly_open', snapshot.get('btc_price_hourly', 0))`. -/
def btcOpenChain (j : JsonV) : JsonV :=
  match jGetField j "btc_price_hourly_open" with
  | some v => v
  | none =>
    match jGetField j "btc_price_hourly" with
    | some v => v
    | none => JsonV.num 0

/-- BTC price commentary of one snapshot (lines 44-55): current price
and hourly open (with legacy fallback), movement classification and
percentage change. -/
def btcCommentary (j : JsonV) : Except String (List String) :=
  match jGetField j "btc_price_current" with
  | none => Except.ok []
  | some jc =>
    match jNumVal jc with
    | none => Except.error "TypeError"
    | some current =>
      if 0 < current then
        match jNumVal (btcOpenChain j) with
        | none => Except.error "TypeError"
        | some hourly_open =>
          if 0 < hourly_open then
            Except.ok [btcCandleBase hourly_open current ++ btcMovement hourly_open current]
          else Except.ok ["BTC Price: $" ++ fmtComma2 current]
      else Except.ok []

/-- One side of the order book: literal price and size text. -/
structure BookLevel where
  price : String
  size : String
deriving DecidableEq

/-- Extract the first five book levels of `bids` or `asks`. -/
def getLevels (j : JsonV) (k : String) : Except String (List BookLevel) :=
  match j with
  | JsonV.obj _ =>
    match jGetField j k with
    | some (JsonV.arr xs) =>
      (xs.take 5).mapM (fun e =>
        match jGetStr e "price" with
        | Except.error er => Except.error er
        | Except.ok p =>
          match jGetStr e "size" with
          | Except.error er => Except.error er
          | Except.ok s => Except.ok ⟨p, s⟩)
    | some _ => Except.error "TypeError"
    | none => Except.error ("KeyError: " ++ k)
  | _ => Except.error "TypeError"

/-- Fields of one snapshot record needed for display. -/
structure SnapInfo where
  ts : String
  aid : String
  market : String
  btc : List String
  bids : List BookLevel
  asks : List BookLevel
deriving DecidableEq

/-- Field extraction for one snapshot record; an error models the
Python exception that aborts the reader on that record. -/
def snap_record_core (j : JsonV) : Except String SnapInfo :=
  match jGetStr j "timestamp" with
  | Except.error e => Except.error e
  | Except.ok ts =>
    match jGetStr j "asset_id" with
    | Except.error e => Except.error e
    | Except.ok aid =>
      match jGetStr j "market" with
      | Except.error e => Except.error e
      | Except.ok market =>
        match btcCommentary j with
        | Except.error e => Except.error e
        | Except.ok btc =>
          match getLevels j "bids" with
          | Except.error e => Except.error e
          | Except.ok bids =>
            match getLevels j "asks" with
            | Except.error e => Except.error e
            | Except.ok asks => Except.ok ⟨ts, aid, market, btc, bids, asks⟩

/-- Printed lines of a list of book levels. -/
def levelLines (ls : List BookLevel) : List String :=
  ls.enum.map (fun p =>
    "  " ++ toString (p.1 + 1) ++ ". Price: " ++ padLeft 6 p.2.price ++
      "  Size: " ++ p.2.size)

/-- Printed lines of one snapshot record at position `count`. -/
def snap_render (info : SnapInfo) (count : Nat) : List String :=
  ["\nSnapshot #" ++ toString (count + 1),
   "Time: " ++ format_timestamp info.ts,
   "Asset ID: " ++ assetIdField info.aid,
   "Market: " ++ info.market] ++
  info.btc ++
  (if info.bids.isEmpty then [] else "\nTop 5 Bids:" :: levelLines info.bids) ++
  (if info.asks.isEmpty then [] else "\nTop 5 Asks:" :: levelLines info.asks)

/-- Loop of `read_orderbook_snapshots` over the remaining lines. -/
def snap_loop (limit : Option Int) : List String → Nat → Run
  | [], count => ⟨[], none, count, 0, []⟩
  | l :: ls, count =>
    if limitReached limit count then ⟨[], none, count, 0, []⟩
    else
      match json_loads l with
      | none => ⟨[], some jsonDecodeErrMsg, count, 1, []⟩
      | some j =>
        match snap_record_core j with
        | Except.error e => ⟨[], some e, count, 1, []⟩
        | Except.ok info =>
          let r := snap_loop limit ls (count + 1)
          ⟨snap_render info count ++ r.out, r.err, r.count, r.decodes + 1, []⟩

/-- Model of `read_orderbook_snapshots` (lines 21-69). -/
def read_orderbook_snapshots (fs : FS) (filepath : String) (limit : Option Int) : Run :=
  match fs filepath with
  | none => ⟨["File not found: " ++ filepath], none, 0, 0, []⟩
  | some fd =>
    let r := snap_loop limit fd.lines 0
    ⟨["\n" ++ eqBar, "ORDERBOOK SNAPSHOTS", eqBar] ++ r.out ++
       (match r.err with
        | none => ["\nTotal snapshots: " ++ toString r.count]
        | some _ => []),
     r.err, r.count, r.decodes, [filepath]⟩

/-! Deprecated price-change reader (src/read_data.py lines 72-74). -/

/-- Model of `read_price_changes`: the body is a single `print`; the
file system and both parameters are never consulted. -/
def read_price_changes (_fs : FS) (_filepath : String) (_limit : Option Int) : Run :=
  ⟨["price_changes.json storage is disabled."], none, 0, 0, []⟩

/-! Trade reader and aggregator (src/read_data.py lines 77-117). -/

/-- Fields and derived numbers of one trade record. -/
structure TradeInfo where
  ts : String
  aid : String
  side : String
  price : String
  size : String
  bps : String
  bpsVal : ℚ
  notional : ℚ
deriving DecidableEq

/-- Model of Python `float(s)` for the decimal-as-text fields; `none`
models a raised `ValueError`. -/
def pyParseFloat (s : String) : Option ℚ :=
  let cs := pyStrip s.data
  let (neg, cs1) := match cs with
    | '-' :: rest => (true, rest)
    | '+' :: rest => (false, rest)
    | _ => (false, cs)
  let (ip, ipn, rest1) := jDigits 0 0 cs1
  let (mant, fn, rest2) : ℚ × Nat × List Char :=
    match rest1 with
    | '.' :: fr =>
      let r := jDigits 0 0 fr
      ((ip : ℚ) + (r.1 : ℚ) / ((10 : ℚ) ^ r.2.1), r.2.1, r.2.2)
    | _ => ((ip : ℚ), 0, rest1)
  if ipn = 0 ∧ fn = 0 then none
  else
    let (val, rest3) : Option ℚ × List Char :=
      match rest2 with
      | e :: es =>
        if e = 'e' || e = 'E' then
          let (eneg, es1) := match es with
            | '-' :: t => (true, t)
            | '+' :: t => (false, t)
            | _ => (false, es)
          let r := jDigits 0 0 es1
          if r.2.1 = 0 then (none, rest2)
          else (some (if eneg then mant / (10 : ℚ) ^ r.1 else mant * (10 : ℚ) ^ r.1), r.2.2)
        else (none, rest2)
      | [] => (some mant, rest2)
    match val, rest3 with
    | some q, [] => some (if neg then -q else q)
    | _, _ => none

/-- Field extraction and numeric conversion for one trade record. -/
def trade_record_core (j : JsonV) : Except String TradeInfo :=
  match jGetStr j "timestamp" with
  | Except.error e => Except.error e
  | Except.ok ts =>
    match jGetStr j "asset_id" with
    | Except.error e => Except.error e
    | Except.ok aid =>
      match jGetStr j "side" with
      | Except.error e => Except.error e
      | Except.ok side =>
        match jGetStr j "price" with
        | Except.error e => Except.error e
        | Except.ok price =>
          match jGetStr j "size" with
          | Except.error e => Except.error e
          | Except.ok size =>
            match jGetStr j "fee_rate_bps" with
            | Except.error e => Except.error e
            | Except.ok bps =>
              match pyParseFloat bps with
              | none => Except.error "ValueError"
              | some bpsVal =>
                match pyParseFloat price, pyParseFloat size with
                | some pv, some sv =>
                  Except.ok ⟨ts, aid, side, price, size, bps, bpsVal, pv * sv⟩
                | _, _ => Except.error "ValueError"

/-- Printed lines of one trade record at position `count`. -/
def trade_render (info : TradeInfo) (count : Nat) : List String :=
  ["\nTrade #" ++ toString (count + 1),
   "Time: " ++ format_timestamp info.ts,
   "Asset ID: " ++ assetIdField info.aid,
   "Side: " ++ padLeft 4 info.side ++ "  Price: " ++ padLeft 6 info.price ++
     "  Size: " ++ info.size,
   "Fee Rate: " ++ info.bps ++ " bps (" ++ fmtQ (info.bpsVal / 100) ++ "%)",
   "Notional Value: $" ++ fmt2 info.notional]

/-- Increment of `side_counts[side]` on the `defaultdict`: Python
dicts preserve insertion order, a new label is appended. -/
def bumpSide (sides : List (String × Nat)) (k : String) : List (String × Nat) :=
  match sides with
  | [] => [(k, 1)]
  | (k2, n) :: rest => if k2 = k then (k2, n + 1) :: rest else (k2, n) :: bumpSide rest k

/-- Defaulted lookup in the side-count mapping (0 for unseen labels). -/
def lookupSide (sides : List (String × Nat)) (k : String) : Nat :=
  match sides.find? (fun p => p.1 = k) with
  | some p => p.2
  | none => 0

/-- Loop state and result of `read_trades` before the final report. -/
structure TLoop where
  out : List String
  err : Option String
  count : Nat
  volume : ℚ
  sides : List (String × Nat)
  decodes : Nat
deriving DecidableEq

/-- Loop of `read_trades` over the remaining lines. -/
def trades_loop (limit : Option Int) :
    List String → Nat → ℚ → List (String × Nat) → TLoop
  | [], count, volume, sides => ⟨[], none, count, volume, sides, 0⟩
  | l :: ls, count, volume, sides =>
    if limitReached limit count then ⟨[], none, count, volume, sides, 0⟩
    else
      match json_loads l with
      | none => ⟨[], some jsonDecodeErrMsg, count, volume, sides, 1⟩
      | some j =>
        match trade_record_core j with
        | Except.error e => ⟨[], some e, count, volume, sides, 1⟩
        | Except.ok info =>
          let r := trades_loop limit ls (count + 1) (volume + info.notional)
            (bumpSide sides info.side)
          ⟨trade_render info count ++ r.out, r.err, r.count, r.volume, r.sides, r.decodes + 1⟩

/-- Final summary of `read_trades` (lines 112-117); the side counts
are only printed when the mapping is non-empty (`if side_counts:`). -/
def trades_final (count : Nat) (volume : ℚ) (sides : List (String × Nat)) : List String :=
  ["\n" ++ eqBar,
   "Total trades: " ++ toString count,
   "Total volume: $" ++ fmt2 volume] ++
  (if sides.isEmpty then []
   else ["Buy trades: " ++ toString (lookupSide sides "BUY"),
         "Sell trades: " ++ toString (lookupSide sides "SELL")])

/-- Model of `read_trades` (lines 77-117). -/
def read_trades (fs : FS) (filepath : String) (limit : Option Int) : TRun :=
  match fs filepath with
  | none => ⟨["File not found: " ++ filepath], none, 0, 0, [], 0, []⟩
  | some fd =>
    let r := trades_loop limit fd.lines 0 0 []
    ⟨["\n" ++ eqBar, "TRADES", eqBar] ++ r.out ++
       (match r.err with
        | none => trades_final r.count r.volume r.sides
        | some _ => []),
     r.err, r.count, r.volume, r.sides, r.decodes, [filepath]⟩

/-! Tick-size-change reader (src/read_data.py lines 120-143); note the
function signature has no limit parameter. -/

/-- Fields of one tick-size-change record. -/
structure TickInfo where
  ts : String
  aid : String
  market : String
  oldTick : String
  newTick : String
deriving DecidableEq

/-- Field extraction for one tick-size-change record. -/
def tick_record_core (j : JsonV) : Except String TickInfo :=
  match jGetStr j "timestamp" with
  | Except.error e => Except.error e
  | Except.ok ts =>
    match jGetStr j "asset_id" with
    | Except.error e => Except.error e
    | Except.ok aid =>
      match jGetStr j "market" with
      | Except.error e => Except.error e
      | Except.ok market =>
        match jGetStr j "old_tick_size" with
        | Except.error e => Except.error e
        | Except.ok oldTick =>
          match jGetStr j "new_tick_size" with
          | Except.error e => Except.error e
          | Except.ok newTick => Except.ok ⟨ts, aid, market, oldTick, newTick⟩

/-- Printed lines of one tick-size-change record at position `count`. -/
def tick_render (info : TickInfo) (count : Nat) : List String :=
  ["\nChange #" ++ toString (count + 1),
   "Time: " ++ format_timestamp info.ts,
   "Asset ID: " ++ assetIdField info.aid,
   "Market: " ++ info.market,
   "Old Tick Size: " ++ info.oldTick ++ " -> New Tick Size: " ++ info.newTick]

/-- Loop of `read_tick_size_changes`: every line is processed, there is
no limit check. -/
def tick_loop : List String → Nat → Run
  | [], count => ⟨[], none, count, 0, []⟩
  | l :: ls, count =>
    match json_loads l with
    | none => ⟨[], some jsonDecodeErrMsg, count, 1, []⟩
    | some j =>
      match tick_record_core j with
      | Except.error e => ⟨[], some e, count, 1, []⟩
      | Except.ok info =>
        let r := tick_loop ls (count + 1)
        ⟨tick_render info count ++ r.out, r.err, r.count, r.decodes + 1, []⟩

/-- Model of `read_tick_size_changes` (lines 120-143). -/
def read_tick_size_changes (fs : FS) (filepath : String) : Run :=
  match fs filepath with
  | none => ⟨["File not found: " ++ filepath], none, 0, 0, []⟩
  | some fd =>
    let r := tick_loop fd.lines 0
    ⟨["\n" ++ eqBar, "TICK SIZE CHANGES", eqBar] ++ r.out ++
       (match r.err with
        | none => ["\nTotal tick size changes: " ++ toString r.count]
        | some _ => []),
     r.err, r.count, r.decodes, [filepath]⟩

/-- Model of the dispatcher's tick-changes branch (src/read_data.py
lines 245-248): `read_tick_size_changes` is called with the file path
only; the CLI record limit is not passed on. -/
def tickDispatch (fs : FS) (dataDir : String) (_limit : Option Int) : Run :=
  read_tick_size_changes fs (dataDir ++ "/tick_size_changes.json")

/-! Dataset statistics reporter (src/read_data.py lines 146-174). -/

/-- The fixed set of named datasets of `get_statistics`. -/
def statsDatasets : List (String × String) :=
  [("Orderbook Snapshots", "orderbook_snapshots.json"),
   ("Trades", "trades.json"),
   ("Tick Size Changes", "tick_size_changes.json")]

/-- Report block of one dataset: line count and size in mebibytes when
the backing file exists, otherwise a no-data notice. -/
def statsEntry (fs : FS) (dataDir : String) (p : String × String) : List String :=
  let filepath := dataDir ++ "/" ++ p.2
  match fs filepath with
  | some fd =>
    ["\n" ++ p.1 ++ ":",
     "  File: " ++ filepath,
     "  Messages: " ++ toString fd.lines.length,
     "  Size: " ++ fmt2 ((fd.sizeBytes : ℚ) / (1024 * 1024)) ++ " MB"]
  | none => ["\n" ++ p.1 ++ ": No data yet"]

/-- Model of `get_statistics` (lines 146-174). -/
def get_statistics (fs : FS) (dataDir : String) : List String :=
  ["\n" ++ eqBar, "DATA STATISTICS", eqBar] ++
    statsDatasets.flatMap (statsEntry fs dataDir)

/-! Derived per-line views of the loops, used to state the theorems. -/

/-- Whether one snapshot line decodes and extracts without an exception. -/
def snapLineOk (l : String) : Bool :=
  match json_loads l with
  | some j =>
    match snap_record_core j with
    | Except.ok _ => true
    | Except.error _ => false
  | none => false

/-- Whether one trade line decodes and extracts without an exception. -/
def tradeLineOk (l : String) : Bool :=
  match json_loads l with
  | some j =>
    match trade_record_core j with
    | Except.ok _ => true
    | Except.error _ => false
  | none => false

/-- Whether one tick-change line decodes and extracts without an exception. -/
def tickLineOk (l : String) : Bool :=
  match json_loads l with
  | some j =>
    match tick_record_core j with
    | Except.ok _ => true
    | Except.error _ => false
  | none => false

/-- Lines printed for one input line at record position `i`. -/
def snapRecordOut (l : String) (i : Nat) : List String :=
  match json_loads l with
  | some j =>
    match snap_record_core j with
    | Except.ok info => snap_render info i
    | Except.error _ => []
  | none => []

/-- Lines printed for one trade line at record position `i`. -/
def tradeRecordOut (l : String) (i : Nat) : List String :=
  match json_loads l with
  | some j =>
    match trade_record_core j with
    | Except.ok info => trade_render info i
    | Except.error _ => []
  | none => []

/-- Lines printed for one tick-change line at record position `i`. -/
def tickRecordOut (l : String) (i : Nat) : List String :=
  match json_loads l with
  | some j =>
    match tick_record_core j with
    | Except.ok info => tick_render info i
    | Except.error _ => []
  | none => []

/-- Notional value contributed by one trade line. -/
def lineNotional (l : String) : ℚ :=
  match json_loads l with
  | some j =>
    match trade_record_core j with
    | Except.ok info => info.notional
    | Except.error _ => 0
  | none => 0

/-- Side label of one trade line. -/
def lineSide (l : String) : String :=
  match json_loads l with
  | some j =>
    match trade_record_core j with
    | Except.ok info => info.side
    | Except.error _ => ""
  | none => ""

/-- Total of all per-side counts in the aggregate mapping. -/
def sidesTotal (sides : List (String × Nat)) : Nat :=
  (sides.map (fun p => p.2)).sum

/-! Concrete fixtures: the spec's two-line trades example and small
files exercising the counterexamples and witnesses. -/

/-- First line of the spec's end-to-end trades example. -/
def tradeLine1 : String :=
  "\x7b\"timestamp\":\"1700000000000\",\"asset_id\":\"abc123\",\"side\":\"BUY\",\"price\":\"0.55\",\"size\":\"10\",\"fee_rate_bps\":\"50\"\x7d"

/-- Second line of the spec's end-to-end trades example. -/
def tradeLine2 : String :=
  "\x7b\"timestamp\":\"1700000000000\",\"asset_id\":\"abc123\",\"side\":\"SELL\",\"price\":\"0.60\",\"size\":\"5\",\"fee_rate_bps\":\"50\"\x7d"

/-- File system holding the spec's two-line trades example. -/
def fsTrades2 : FS := fun p =>
  if p = "data/trades.json" then some ⟨[tradeLine1, tradeLine2], 240⟩ else none

/-- File system holding the example trades in the swapped order. -/
def fsTrades2Swap : FS := fun p =>
  if p = "data/trades.json" then some ⟨[tradeLine2, tradeLine1], 240⟩ else none

/-- File system with an existing but empty trades file. -/
def fsTradesEmpty : FS := fun p =>
  if p = "data/trades.json" then some ⟨[], 0⟩ else none

/-- File system whose trades file starts with a blank line. -/
def fsTradesBlank : FS := fun p =>
  if p = "data/trades.json" then some ⟨["", tradeLine1], 130⟩ else none

/-- A tick-size-change record line. -/
def tickLine1 : String :=
  "\x7b\"timestamp\":\"1700000000000\",\"asset_id\":\"abc\",\"market\":\"BTC-UP\",\"old_tick_size\":\"0.01\",\"new_tick_size\":\"0.001\"\x7d"

/-- A second tick-size-change record line. -/
def tickLine2 : String :=
  "\x7b\"timestamp\":\"1700000003000\",\"asset_id\":\"abc\",\"market\":\"BTC-UP\",\"old_tick_size\":\"0.001\",\"new_tick_size\":\"0.01\"\x7d"

/-- File system holding a two-record tick-size-change file. -/
def fsTick2 : FS := fun p =>
  if p = "data/tick_size_changes.json" then some ⟨[tickLine1, tickLine2], 230⟩ else none

/-- A minimal orderbook snapshot line. -/
def snapLine1 : String :=
  "\x7b\"timestamp\":\"1700000000000\",\"asset_id\":\"abc\",\"market\":\"BTC-UP\",\"bids\":[\x7b\"price\":\"0.5\",\"size\":\"10\"\x7d],\"asks\":[]\x7d"

/-- A second minimal orderbook snapshot line. -/
def snapLine2 : String :=
  "\x7b\"timestamp\":\"1700000001000\",\"asset_id\":\"abc\",\"market\":\"BTC-UP\",\"bids\":[],\"asks\":[\x7b\"price\":\"0.6\",\"size\":\"4\"\x7d]\x7d"

/-- File system holding a two-record snapshots file. -/
def fsSnap2 : FS := fun p =>
  if p = "data/orderbook_snapshots.json" then some ⟨[snapLine1, snapLine2], 260⟩ else none

/-- File system where snapshots exist but trades and tick changes do
not, for the statistics reporter. -/
def fsStatsMixed : FS := fun p =>
  if p = "data/orderbook_snapshots.json" then some ⟨[snapLine1, snapLine2], 262144⟩ else none

/-- Snapshot object with both reference prices present and rising. -/
def snapObjUp : JsonV :=
  JsonV.obj [("btc_price_current", JsonV.num 100), ("btc_price_hourly_open", JsonV.num 90)]

/-- Snapshot object with equal current and open reference prices. -/
def snapObjFlat : JsonV :=
  JsonV.obj [("btc_price_current", JsonV.num 90), ("btc_price_hourly_open", JsonV.num 90)]

/-- Snapshot object with only a current reference price. -/
def snapObjAlone : JsonV := JsonV.obj [("btc_price_current", JsonV.num 100)]

/-- Snapshot object with no reference prices at all. -/
def snapObjNone : JsonV := JsonV.obj []

/-! Helper lemmas. -/

theorem pad2_length (n : Nat) (h : n < 100) : (pad2 n).length = 2 := by
  simp [pad2, h]

theorem pad4_length (n : Nat) (h : n < 10000) : (pad4 n).length = 4 := by
  simp [pad4, h]

theorem doyOf_le (doe : Nat) : doyOf doe ≤ 365 := by
  unfold doyOf yrOf r4Of
  omega

theorem monthOf_bounds (doe : Nat) : 1 ≤ monthOf doe ∧ monthOf doe ≤ 12 := by
  have hd := doyOf_le doe
  unfold monthOf mpOf
  split <;> omega

theorem dayOf_bounds (doe : Nat) : 1 ≤ dayOf doe ∧ dayOf doe ≤ 31 := by
  have hd := doyOf_le doe
  unfold dayOf mpOf
  omega

theorem renderCivil_length (y : Int) (m d sod : Nat)
    (hy1 : 1 ≤ y) (hy2 : y ≤ 9999) (hm : m < 100) (hd : d < 100) (hsod : sod < 86400) :
    (renderCivil y m d sod).length = 19 := by
  have hyn : y.toNat < 10000 := by omega
  have h1 : sod / 3600 < 100 := by omega
  have h2 : sod % 3600 / 60 < 100 := by omega
  have h3 : sod % 60 < 100 := by omega
  simp [renderCivil, String.length_append, pad4_length _ hyn, pad2_length _ hm,
    pad2_length _ hd, pad2_length _ h1, pad2_length _ h2, pad2_length _ h3]
  decide

theorem renderEpochSeconds_length (secs : Int)
    (h1 : 1 ≤ (civilFromDays ((secs / 86400))).1)
    (h2 : (civilFromDays ((secs / 86400))).1 ≤ 9999) :
    (renderEpochSeconds secs).length = 19 := by
  have hm := monthOf_bounds ((((secs / 86400 + 719468) % 146097)).toNat)
  have hd := dayOf_bounds ((((secs / 86400 + 719468) % 146097)).toNat)
  have hsod : (secs % 86400).toNat < 86400 := by
    have ha := Int.emod_nonneg secs (show (86400 : Int) ≠ 0 by norm_num)
    have hb := Int.emod_lt_of_pos secs (show (0 : Int) < 86400 by norm_num)
    omega
  have hmm : (civilFromDays ((secs / 86400))).2.1 =
      monthOf ((((secs / 86400 + 719468) % 146097)).toNat) := rfl
  have hdd : (civilFromDays ((secs / 86400))).2.2 =
      dayOf ((((secs / 86400 + 719468) % 146097)).toNat) := rfl
  exact renderCivil_length _ _ _ _ h1 h2 (by rw [hmm]; omega) (by rw [hdd]; omega) hsod

/-! Claim C3: the timestamp formatter either renders the fixed-width
calendar string of the value divided by 1000, or echoes its input
exactly. -/

/-- C3: for every input that parses as a Python integer and whose
conversion succeeds, `format_timestamp` returns the fixed-width
(19-character) calendar rendering of the value divided by 1000; for
every input that does not parse, or whose conversion fails (year
outside 1..9999), it returns the original text unchanged. -/
theorem claim3_format_timestamp (s : String) :
    (pyParseInt s = none → format_timestamp s = s) ∧
    (∀ v : Int, pyParseInt s = some v →
      (tsInRange v = true →
        format_timestamp s = renderEpochSeconds (v / 1000) ∧
        (format_timestamp s).length = 19) ∧
      (tsInRange v = false → format_timestamp s = s)) := by
  refine ⟨fun h => by simp [format_timestamp, h], fun v hv => ⟨fun ht => ?_, fun ht => by
    simp [format_timestamp, hv, ht]⟩⟩
  have he : format_timestamp s = renderEpochSeconds (v / 1000) := by
    simp [format_timestamp, hv, ht]
  have hy : 1 ≤ tsYear v ∧ tsYear v ≤ 9999 := by
    have ht2 := ht
    unfold tsInRange at ht2
    exact of_decide_eq_true ht2
  refine ⟨he, ?_⟩
  rw [he]
  exact renderEpochSeconds_length _ hy.1 hy.2

/-- Witness for C3 at three concrete inputs: a normal millisecond
timestamp, a non-numeric string, and an out-of-range integer. -/
theorem claim3_format_timestamp_witness :
    format_timestamp "1700000000000" = renderEpochSeconds ((1700000000000 : Int) / 1000) ∧
    (format_timestamp "1700000000000").length = 19 ∧
    format_timestamp "not a number" = "not a number" ∧
    format_timestamp "999999999999999999" = "999999999999999999" := by
  have h1 := ((claim3_format_timestamp "1700000000000").2 1700000000000 (by decide)).1 (by decide)
  have h2 := (claim3_format_timestamp "not a number").1 (by decide)
  have h3 := ((claim3_format_timestamp "999999999999999999").2 999999999999999999
    (by decide)).2 (by decide)
  exact ⟨h1.1, h1.2, h2, h3⟩

/-! Claim C10: the deprecated price-change reader touches nothing. -/

/-- C10: `read_price_changes` opens no file, performs no decode, yields
no records, and emits only the fixed disabled notice; its result is a
constant independent of the file system, the path and the limit. -/
theorem claim10_price_changes (fs : FS) (filepath : String) (limit : Option Int) :
    read_price_changes fs filepath limit =
      ⟨["price_changes.json storage is disabled."], none, 0, 0, []⟩ ∧
    (∀ (fs2 : FS) (fp2 : String) (l2 : Option Int),
      read_price_changes fs filepath limit = read_price_changes fs2 fp2 l2) :=
  ⟨rfl, fun _ _ _ => rfl⟩

/-! Claim C2: asset identifier truncation.  The source appends the
ellipsis unconditionally, so identifiers of twenty characters or fewer
do not render unchanged. -/

/-- C2 counterexample: a three-character asset identifier is rendered
by the tick-change formatter with a trailing ellipsis, not unchanged. -/
theorem claim2_counterexample :
    "Asset ID: abc..." ∈ (read_tick_size_changes fsTick2 "data/tick_size_changes.json").out ∧
    "Asset ID: abc" ∉ (read_tick_size_changes fsTick2 "data/tick_size_changes.json").out ∧
    ("abc" : String).length ≤ 20 := by
  decide

/-- C2 amended: every asset identifier is rendered as its first
`min 20 length` characters followed by the ellipsis marker: above
twenty characters exactly the first twenty are kept, at or below
twenty the whole identifier is kept, but the ellipsis is appended in
every case; all three formatters render the identifier this way on
their third output line. -/
theorem claim2_truncation (a : String) :
    (a.length ≤ 20 → assetIdField a = a ++ "...") ∧
    (20 < a.length → assetIdField a = pyTake 20 a ++ "..." ∧ (pyTake 20 a).length = 20) ∧
    (∀ (info : TradeInfo) (i : Nat),
      (trade_render info i).get? 2 = some ("Asset ID: " ++ assetIdField info.aid)) ∧
    (∀ (info : SnapInfo) (i : Nat),
      (snap_render info i).get? 2 = some ("Asset ID: " ++ assetIdField info.aid)) ∧
    (∀ (info : TickInfo) (i : Nat),
      (tick_render info i).get? 2 = some ("Asset ID: " ++ assetIdField info.aid)) := by
  refine ⟨fun h => ?_, fun h => ⟨rfl, ?_⟩, fun info i => rfl, fun info i => rfl,
    fun info i => rfl⟩
  · have : a.data.take 20 = a.data := List.take_of_length_le h
    simp [assetIdField, pyTake, this]
  · have hl : (pyTake 20 a).length = min 20 a.data.length := by
      simp [pyTake]
    have ha : a.length = a.data.length := rfl
    omega

/-- Witness for C2 at a short and a long identifier. -/
theorem claim2_truncation_witness :
    assetIdField "abc" = "abc" ++ "..." ∧
    assetIdField "abcdefghijklmnopqrstuvwxy" =
      pyTake 20 "abcdefghijklmnopqrstuvwxy" ++ "..." := by
  exact ⟨(claim2_truncation "abc").1 (by decide),
    ((claim2_truncation "abcdefghijklmnopqrstuvwxy").2.1 (by decide)).1⟩

/-! Loop lemmas for the three line-processing loops. -/

theorem limitReached_none (c : Nat) : limitReached none c = false := rfl

theorem limitReached_coe_false (N c : Nat) (h : c < N) :
    limitReached (some (N : Int)) c = false := by
  have h2 : ¬ ((N : Int) ≤ (c : Int)) := by exact_mod_cast Nat.not_le.mpr h
  simp [limitReached, h2]

theorem limitReached_coe_true (N c : Nat) (hN : 0 < N) (h : N ≤ c) :
    limitReached (some (N : Int)) c = true := by
  have h1 : ((N : Int) == 0) = false := by
    simp only [beq_eq_false_iff_ne, ne_eq]
    exact_mod_cast Nat.pos_iff_ne_zero.mp hN
  have h2 : (N : Int) ≤ (c : Int) := by exact_mod_cast h
  simp [limitReached, h1, h2]

theorem trades_loop_stop (limit : Option Int) (ls : List String) (c : Nat) (v : ℚ)
    (sides : List (String × Nat)) (h : limitReached limit c = true) :
    trades_loop limit ls c v sides = ⟨[], none, c, v, sides, 0⟩ := by
  cases ls with
  | nil => rfl
  | cons l ls => simp [trades_loop, h]

theorem trades_loop_limited (ls : List String) :
    ∀ (N c : Nat) (v : ℚ) (sides : List (String × Nat)),
      0 < N → ls.all tradeLineOk = true → c ≤ N → N ≤ c + ls.length →
      (trades_loop (some (N : Int)) ls c v sides).count = N ∧
      (trades_loop (some (N : Int)) ls c v sides).decodes = N - c ∧
      (trades_loop (some (N : Int)) ls c v sides).err = none := by
  induction ls with
  | nil =>
    intro N c v sides hN hok h1 h2
    simp only [List.length_nil, Nat.add_zero] at h2
    have hc : c = N := Nat.le_antisymm h1 h2
    subst hc
    exact ⟨rfl, by simp [trades_loop], rfl⟩
  | cons l ls ih =>
    intro N c v sides hN hok h1 h2
    rcases Nat.eq_or_lt_of_le h1 with he | hlt
    · subst he
      rw [trades_loop_stop _ _ _ _ _ (limitReached_coe_true c c hN (Nat.le_refl c))]
      exact ⟨rfl, by simp, rfl⟩
    · have hr := limitReached_coe_false N c hlt
      have hok2 : tradeLineOk l = true ∧ ls.all tradeLineOk = true := by
        simpa [List.all_cons] using hok
      cases hjl : json_loads l with
      | none => simp [tradeLineOk, hjl] at hok2
      | some j =>
        cases hcore : trade_record_core j with
        | error e => simp [tradeLineOk, hjl, hcore] at hok2
        | ok info =>
          have h2b : N ≤ (c + 1) + ls.length := by
            simp only [List.length_cons] at h2
            omega
          have ihr := ih N (c + 1) (v + info.notional) (bumpSide sides info.side)
            hN hok2.2 hlt h2b
          simp only [trades_loop, hr, hjl, hcore, Bool.false_eq_true, if_false]
          refine ⟨by simp [ihr.1], ?_, by simp [ihr.2.2]⟩
          simp only [ihr.2.1]
          omega

theorem trades_loop_all (ls : List String) :
    ∀ (c : Nat) (v : ℚ) (sides : List (String × Nat)), ls.all tradeLineOk = true →
      trades_loop none ls c v sides =
        ⟨(List.enumFrom c ls).flatMap (fun p => tradeRecordOut p.2 p.1), none,
         c + ls.length, v + (ls.map lineNotional).sum,
         List.foldl (fun s l => bumpSide s (lineSide l)) sides ls, ls.length⟩ := by
  induction ls with
  | nil =>
    intro c v sides _
    simp [trades_loop]
  | cons l ls ih =>
    intro c v sides hok
    have hok2 : tradeLineOk l = true ∧ ls.all tradeLineOk = true := by
      simpa [List.all_cons] using hok
    cases hjl : json_loads l with
    | none => simp [tradeLineOk, hjl] at hok2
    | some j =>
      cases hcore : trade_record_core j with
      | error e => simp [tradeLineOk, hjl, hcore] at hok2
      | ok info =>
        have hout : tradeRecordOut l c = trade_render info c := by
          simp [tradeRecordOut, hjl, hcore]
        have hnot : lineNotional l = info.notional := by simp [lineNotional, hjl, hcore]
        have hside : lineSide l = info.side := by simp [lineSide, hjl, hcore]
        simp only [trades_loop, limitReached_none, Bool.false_eq_true, if_false, hjl, hcore]
        rw [ih (c + 1) (v + info.notional) (bumpSide sides info.side) hok2.2]
        simp [TLoop.mk.injEq, List.enumFrom, hout, hnot, hside, Nat.add_assoc,
          Nat.add_comm, Nat.add_left_comm, add_assoc]

/-! Claim C5: aggregate invariants of the trade loop. -/

theorem bumpSide_total (sides : List (String × Nat)) (k : String) :
    sidesTotal (bumpSide sides k) = sidesTotal sides + 1 := by
  induction sides with
  | nil => rfl
  | cons p rest ih =>
    obtain ⟨k2, n⟩ := p
    by_cases h : k2 = k
    · simp [bumpSide, h, sidesTotal]
      omega
    · simp only [bumpSide, if_neg h]
      simp only [sidesTotal, List.map_cons, List.sum_cons] at *
      omega

/-- C5: for every trade stream, any limit and any mix of side labels,
the sum of the per-side counts in the running aggregate equals the
total trade count, and the record count never decreases during the
pass. -/
theorem claim5_aggregate_invariant (ls : List String) :
    ∀ (limit : Option Int) (c : Nat) (v : ℚ) (sides : List (String × Nat)),
      sidesTotal sides = c →
      sidesTotal (trades_loop limit ls c v sides).sides =
        (trades_loop limit ls c v sides).count ∧
      c ≤ (trades_loop limit ls c v sides).count := by
  induction ls with
  | nil =>
    intro limit c v sides hinv
    exact ⟨hinv, Nat.le_refl c⟩
  | cons l ls ih =>
    intro limit c v sides hinv
    by_cases hr : limitReached limit c = true
    · rw [trades_loop_stop _ _ _ _ _ hr]
      exact ⟨hinv, Nat.le_refl c⟩
    · have hr2 : limitReached limit c = false := by
        simpa using hr
      cases hjl : json_loads l with
      | none =>
        simp only [trades_loop, hr2, Bool.false_eq_true, if_false, hjl]
        exact ⟨hinv, Nat.le_refl c⟩
      | some j =>
        cases hcore : trade_record_core j with
        | error e =>
          simp only [trades_loop, hr2, Bool.false_eq_true, if_false, hjl, hcore]
          exact ⟨hinv, Nat.le_refl c⟩
        | ok info =>
          have hinv2 : sidesTotal (bumpSide sides info.side) = c + 1 := by
            rw [bumpSide_total, hinv]
          have ihr := ih limit (c + 1) (v + info.notional) (bumpSide sides info.side) hinv2
          simp only [trades_loop, hr2, Bool.false_eq_true, if_false, hjl, hcore]
          exact ⟨ihr.1, Nat.le_trans (Nat.le_succ c) ihr.2⟩

/-- Witness for C5 on the spec's two-line example with no limit and a
fresh aggregate. -/
theorem claim5_aggregate_invariant_witness :
    sidesTotal (trades_loop none [tradeLine1, tradeLine2] 0 0 []).sides =
      (trades_loop none [tradeLine1, tradeLine2] 0 0 []).count ∧
    0 ≤ (trades_loop none [tradeLine1, tradeLine2] 0 0 []).count :=
  claim5_aggregate_invariant [tradeLine1, tradeLine2] none 0 0 [] (by decide)

/-! Snapshot and tick loop lemmas. -/

theorem snap_loop_stop (limit : Option Int) (ls : List String) (c : Nat)
    (h : limitReached limit c = true) :
    snap_loop limit ls c = ⟨[], none, c, 0, []⟩ := by
  cases ls with
  | nil => rfl
  | cons l ls => simp [snap_loop, h]

theorem snap_loop_limited (ls : List String) :
    ∀ (N c : Nat), 0 < N → ls.all snapLineOk = true → c ≤ N → N ≤ c + ls.length →
      (snap_loop (some (N : Int)) ls c).count = N ∧
      (snap_loop (some (N : Int)) ls c).decodes = N - c ∧
      (snap_loop (some (N : Int)) ls c).err = none := by
  induction ls with
  | nil =>
    intro N c hN hok h1 h2
    simp only [List.length_nil, Nat.add_zero] at h2
    have hc : c = N := Nat.le_antisymm h1 h2
    subst hc
    exact ⟨rfl, by simp [snap_loop], rfl⟩
  | cons l ls ih =>
    intro N c hN hok h1 h2
    rcases Nat.eq_or_lt_of_le h1 with he | hlt
    · subst he
      rw [snap_loop_stop _ _ _ (limitReached_coe_true c c hN (Nat.le_refl c))]
      exact ⟨rfl, by simp, rfl⟩
    · have hr := limitReached_coe_false N c hlt
      have hok2 : snapLineOk l = true ∧ ls.all snapLineOk = true := by
        simpa [List.all_cons] using hok
      cases hjl : json_loads l with
      | none => simp [snapLineOk, hjl] at hok2
      | some j =>
        cases hcore : snap_record_core j with
        | error e => simp [snapLineOk, hjl, hcore] at hok2
        | ok info =>
          have h2b : N ≤ (c + 1) + ls.length := by
            simp only [List.length_cons] at h2
            omega
          have ihr := ih N (c + 1) hN hok2.2 hlt h2b
          simp only [snap_loop, hr, Bool.false_eq_true, if_false, hjl, hcore]
          refine ⟨by simp [ihr.1], ?_, by simp [ihr.2.2]⟩
          simp only [ihr.2.1]
          omega

theorem snap_loop_all (ls : List String) :
    ∀ c : Nat, ls.all snapLineOk = true →
      snap_loop none ls c =
        ⟨(List.enumFrom c ls).flatMap (fun p => snapRecordOut p.2 p.1), none,
         c + ls.length, ls.length, []⟩ := by
  induction ls with
  | nil =>
    intro c _
    simp [snap_loop]
  | cons l ls ih =>
    intro c hok
    have hok2 : snapLineOk l = true ∧ ls.all snapLineOk = true := by
      simpa [List.all_cons] using hok
    cases hjl : json_loads l with
    | none => simp [snapLineOk, hjl] at hok2
    | some j =>
      cases hcore : snap_record_core j with
      | error e => simp [snapLineOk, hjl, hcore] at hok2
      | ok info =>
        have hout : snapRecordOut l c = snap_render info c := by
          simp [snapRecordOut, hjl, hcore]
        simp only [snap_loop, limitReached_none, Bool.false_eq_true, if_false, hjl, hcore]
        rw [ih (c + 1) hok2.2]
        simp [Run.mk.injEq, List.enumFrom, hout, Nat.add_assoc, Nat.add_comm,
          Nat.add_left_comm]

theorem tick_loop_all (ls : List String) :
    ∀ c : Nat, ls.all tickLineOk = true →
      tick_loop ls c =
        ⟨(List.enumFrom c ls).flatMap (fun p => tickRecordOut p.2 p.1), none,
         c + ls.length, ls.length, []⟩ := by
  induction ls with
  | nil =>
    intro c _
    simp [tick_loop]
  | cons l ls ih =>
    intro c hok
    have hok2 : tickLineOk l = true ∧ ls.all tickLineOk = true := by
      simpa [List.all_cons] using hok
    cases hjl : json_loads l with
    | none => simp [tickLineOk, hjl] at hok2
    | some j =>
      cases hcore : tick_record_core j with
      | error e => simp [tickLineOk, hjl, hcore] at hok2
      | ok info =>
        have hout : tickRecordOut l c = tick_render info c := by
          simp [tickRecordOut, hjl, hcore]
        simp only [tick_loop, hjl, hcore]
        rw [ih (c + 1) hok2.2]
        simp [Run.mk.injEq, List.enumFrom, hout, Nat.add_assoc, Nat.add_comm,
          Nat.add_left_comm]

/-! Claim C1: record-limit semantics.  The snapshot and trade readers
apply the limit; the tick-size-change reader has no limit parameter at
all, so the claim fails on the tick dataset. -/

/-- C1 counterexample: with a requested limit of 1 on a two-record
tick-size-change file, the dispatcher's tick branch displays both
records, because `read_tick_size_changes` accepts no limit. -/
theorem claim1_counterexample :
    (tickDispatch fsTick2 "data" (some 1)).count = 2 ∧
    (tickDispatch fsTick2 "data" (some 1)).count ≠ 1 := by
  decide

/-- C1 amended: for the snapshot and trade readers, a positive limit
`N` on a well-formed file of at least `N` records displays exactly `N`
records and decodes exactly `N` lines (none beyond the cap); the
tick-size-change reader ignores any requested limit and processes and
decodes every record of its file (a limit of 0 is also treated by the
loops as no limit; see `limitReached`). -/
theorem claim1_record_limit (N : Nat) (hN : 0 < N) (fs : FS) (fp : String) (fd : FileData) :
    (fs fp = some fd → fd.lines.all snapLineOk = true → N ≤ fd.lines.length →
      (read_orderbook_snapshots fs fp (some (N : Int))).count = N ∧
      (read_orderbook_snapshots fs fp (some (N : Int))).decodes = N) ∧
    (fs fp = some fd → fd.lines.all tradeLineOk = true → N ≤ fd.lines.length →
      (read_trades fs fp (some (N : Int))).count = N ∧
      (read_trades fs fp (some (N : Int))).decodes = N) ∧
    (fs fp = some fd → fd.lines.all tickLineOk = true →
      (read_tick_size_changes fs fp).count = fd.lines.length ∧
      (read_tick_size_changes fs fp).decodes = fd.lines.length) := by
  refine ⟨fun hfs hok hlen => ?_, fun hfs hok hlen => ?_, fun hfs hok => ?_⟩
  · have h := snap_loop_limited fd.lines N 0 hN hok (Nat.zero_le N) (by omega)
    simp only [read_orderbook_snapshots, hfs]
    exact ⟨by simp [h.1], by simpa using h.2.1⟩
  · have h := trades_loop_limited fd.lines N 0 0 [] hN hok (Nat.zero_le N) (by omega)
    simp only [read_trades, hfs]
    exact ⟨by simp [h.1], by simpa using h.2.1⟩
  · have h := tick_loop_all fd.lines 0 hok
    simp only [read_tick_size_changes, hfs]
    exact ⟨by simp [h], by simp [h]⟩

/-- Witness for C1: limit 1 on the two-record snapshot and trade
files displays exactly one record; the tick reader processes both of
its records. -/
theorem claim1_record_limit_witness :
    (read_orderbook_snapshots fsSnap2 "data/orderbook_snapshots.json" (some 1)).count = 1 ∧
    (read_orderbook_snapshots fsSnap2 "data/orderbook_snapshots.json" (some 1)).decodes = 1 ∧
    (read_trades fsTrades2 "data/trades.json" (some 1)).count = 1 ∧
    (read_tick_size_changes fsTick2 "data/tick_size_changes.json").count = 2 := by
  have h1 := (claim1_record_limit 1 (by decide) fsSnap2 "data/orderbook_snapshots.json"
    ⟨[snapLine1, snapLine2], 260⟩).1 (by decide) (by decide) (by decide)
  have h2 := ((claim1_record_limit 1 (by decide) fsTrades2 "data/trades.json"
    ⟨[tradeLine1, tradeLine2], 240⟩).2.1 (by decide) (by decide) (by decide))
  have h3 := ((claim1_record_limit 1 (by decide) fsTick2 "data/tick_size_changes.json"
    ⟨[tickLine1, tickLine2], 230⟩).2.2 (by decide) (by decide))
  exact ⟨h1.1, h1.2, h2.1, h3.1⟩

/-! Claim C6: one decoded record per line.  The source decodes every
line it reads, including blank ones, and `json.loads` fails on a blank
line, so blank lines are not skipped: they abort the dataset with a
decode error. -/

theorem json_loads_ws (s : String) (h : s.data.all jWs = true) : json_loads s = none := by
  have hskip : jSkipWs s.data = [] := by
    simp only [jSkipWs, List.dropWhile_eq_nil_iff]
    intro x hx
    exact List.all_eq_true.mp h x hx
  have hval : jValueP (s.length + 1) s.data = none := by
    simp [jValueP, hskip]
  simp [json_loads, hval]

/-- C6 counterexample: a trades file whose first line is blank fails
with a decode error before yielding any record; blank lines are not
skipped by the reader. -/
theorem claim6_counterexample :
    json_loads "" = none ∧
    (read_trades fsTradesBlank "data/trades.json" none).err = some jsonDecodeErrMsg ∧
    (read_trades fsTradesBlank "data/trades.json" none).count = 0 ∧
    (read_trades fsTradesBlank "data/trades.json" none).decodes = 1 := by
  refine ⟨rfl, ?_, ?_, ?_⟩ <;> decide

/-- C6 amended: on a file whose every line is well formed, the trade
and snapshot readers decode exactly one JSON object per line (blank or
not) and emit the records in the file's physical order, numbering them
from zero; a whitespace-only line is not valid JSON, so it yields no
record and raises a decode error instead of being skipped. -/
theorem claim6_per_line (fs : FS) (fp : String) (fd : FileData) :
    (fs fp = some fd → fd.lines.all tradeLineOk = true →
      (read_trades fs fp none).out =
        ["\n" ++ eqBar, "TRADES", eqBar] ++
          (List.enumFrom 0 fd.lines).flatMap (fun p => tradeRecordOut p.2 p.1) ++
          trades_final fd.lines.length ((fd.lines.map lineNotional).sum)
            (List.foldl (fun s l => bumpSide s (lineSide l)) [] fd.lines) ∧
      (read_trades fs fp none).count = fd.lines.length ∧
      (read_trades fs fp none).decodes = fd.lines.length ∧
      (read_trades fs fp none).err = none) ∧
    (fs fp = some fd → fd.lines.all snapLineOk = true →
      (read_orderbook_snapshots fs fp none).out =
        ["\n" ++ eqBar, "ORDERBOOK SNAPSHOTS", eqBar] ++
          (List.enumFrom 0 fd.lines).flatMap (fun p => snapRecordOut p.2 p.1) ++
          ["\nTotal snapshots: " ++ toString fd.lines.length] ∧
      (read_orderbook_snapshots fs fp none).count = fd.lines.length ∧
      (read_orderbook_snapshots fs fp none).err = none) ∧
    (∀ s : String, s.data.all jWs = true → json_loads s = none) := by
  refine ⟨fun hfs hok => ?_, fun hfs hok => ?_, fun s hs => json_loads_ws s hs⟩
  · simp only [read_trades, hfs]
    rw [trades_loop_all fd.lines 0 0 [] hok]
    simp
  · simp only [read_orderbook_snapshots, hfs]
    rw [snap_loop_all fd.lines 0 hok]
    simp

/-- Witness for C6 on the two-line example trades file and a
whitespace-only line. -/
theorem claim6_per_line_witness :
    (read_trades fsTrades2 "data/trades.json" none).count = 2 ∧
    (read_trades fsTrades2 "data/trades.json" none).err = none ∧
    json_loads "  " = none := by
  have h := claim6_per_line fsTrades2 "data/trades.json" ⟨[tradeLine1, tradeLine2], 240⟩
  have h1 := h.1 (by decide) (by decide)
  exact ⟨h1.2.1, h1.2.2.2, h.2.2 "  " (by decide)⟩

/-! Claim C4: total volume is the exact sum of per-record notionals,
independent of processing order, with the spec's two-line example. -/

attribute [local semireducible] Rat.add Rat.mul Rat.inv Rat.sub Rat.ofScientific in
/-- C4: the reported total volume of a well-formed trades file equals
the sum of its per-line notionals taken in stream order; that sum is
invariant under any permutation of the records; and on the spec's
two-line example file the run reports total volume `$8.50`, one BUY
and one SELL (exact rationals model the Python floats, under which the
sum is order independent). -/
theorem claim4_total_volume :
    (∀ (fs : FS) (fp : String) (fd : FileData), fs fp = some fd →
      fd.lines.all tradeLineOk = true →
      (read_trades fs fp none).volume = (fd.lines.map lineNotional).sum) ∧
    (∀ l1 l2 : List String, l1.Perm l2 →
      (l1.map lineNotional).sum = (l2.map lineNotional).sum) ∧
    ("Total volume: $8.50" ∈ (read_trades fsTrades2 "data/trades.json" none).out ∧
     "Buy trades: 1" ∈ (read_trades fsTrades2 "data/trades.json" none).out ∧
     "Sell trades: 1" ∈ (read_trades fsTrades2 "data/trades.json" none).out ∧
     (read_trades fsTrades2 "data/trades.json" none).volume = 17 / 2) := by
  refine ⟨fun fs fp fd hfs hok => ?_, fun l1 l2 hperm => (hperm.map lineNotional).sum_eq, ?_⟩
  · simp only [read_trades, hfs]
    rw [trades_loop_all fd.lines 0 0 [] hok]
    simp
  · decide

attribute [local semireducible] Rat.add Rat.mul Rat.inv Rat.sub Rat.ofScientific in
/-- Witness for C4: the example file's reported volume equals the sum
of its two notionals, and the sum is unchanged when the two records
are swapped. -/
theorem claim4_total_volume_witness :
    (read_trades fsTrades2 "data/trades.json" none).volume =
      ([tradeLine1, tradeLine2].map lineNotional).sum ∧
    ([tradeLine1, tradeLine2].map lineNotional).sum =
      ([tradeLine2, tradeLine1].map lineNotional).sum := by
  exact ⟨claim4_total_volume.1 fsTrades2 "data/trades.json" ⟨[tradeLine1, tradeLine2], 240⟩
      (by decide) (by decide),
    claim4_total_volume.2.1 [tradeLine1, tradeLine2] [tradeLine2, tradeLine1] (by decide)⟩

/-! Claim C7: snapshot price-movement classification. -/

/-- C7: with a present, strictly positive current price and a strictly
positive effective hourly open, the snapshot formatter emits the
candle line whose movement marker is UP exactly when current is at
least the open (ties count as up) and DOWN when it is below, with the
percentage change rendered from `(current - open) / open * 100`; with
no positive open the current price is shown alone; with the current
price absent or nonpositive the commentary is empty. -/
theorem claim7_movement (j : JsonV) (c op : ℚ) :
    (∀ jc, jGetField j "btc_price_current" = some jc → jNumVal jc = some c → 0 < c →
      jNumVal (btcOpenChain j) = some op →
      ((0 < op →
        btcCommentary j = Except.ok [btcCandleBase op c ++ btcMovement op c] ∧
        (op ≤ c → btcMovement op c = "UP 📈") ∧
        (c < op → btcMovement op c = "DOWN 📉") ∧
        btcCandleBase op c = "BTC 1H Candle: Open=$" ++ fmtComma2 op ++ " Current=$" ++
          fmtComma2 c ++ " (" ++ fmtPlus2 (c - op) ++ " / " ++
          fmtPlus2 ((c - op) / op * 100) ++ "%) ") ∧
       (op ≤ 0 → btcCommentary j = Except.ok ["BTC Price: $" ++ fmtComma2 c]))) ∧
    (jGetField j "btc_price_current" = none → btcCommentary j = Except.ok []) ∧
    (∀ jc, jGetField j "btc_price_current" = some jc → jNumVal jc = some c → c ≤ 0 →
      btcCommentary j = Except.ok []) := by
  refine ⟨fun jc hget hnum hc hop => ⟨fun hpos => ?_, fun hnonpos => ?_⟩,
    fun hget => ?_, fun jc hget hnum hc => ?_⟩
  · refine ⟨by simp [btcCommentary, hget, hnum, hc, hop, hpos],
      fun h => by simp [btcMovement, h], fun h => by simp [btcMovement, not_le.mpr h], rfl⟩
  · simp [btcCommentary, hget, hnum, hc, hop, not_lt.mpr hnonpos]
  · simp [btcCommentary, hget]
  · simp [btcCommentary, hget, hnum, not_lt.mpr hc]

/-- Witness for C7: rising prices and equal prices classify as UP, a
lone current price is shown alone, and an absent current price yields
no commentary. -/
theorem claim7_movement_witness :
    btcCommentary snapObjUp = Except.ok [btcCandleBase 90 100 ++ "UP 📈"] ∧
    btcCommentary snapObjFlat = Except.ok [btcCandleBase 90 90 ++ "UP 📈"] ∧
    btcCommentary snapObjAlone = Except.ok ["BTC Price: $" ++ fmtComma2 100] ∧
    btcCommentary snapObjNone = Except.ok [] := by
  have h1 := ((claim7_movement snapObjUp 100 90).1 (JsonV.num 100) rfl rfl
    (by norm_num) rfl).1 (by norm_num)
  have h2 := ((claim7_movement snapObjFlat 90 90).1 (JsonV.num 90) rfl rfl
    (by norm_num) rfl).1 (by norm_num)
  have h3 := ((claim7_movement snapObjAlone 100 0).1 (JsonV.num 100) rfl rfl
    (by norm_num) rfl).2 (by norm_num)
  have h4 := (claim7_movement snapObjNone 0 0).2.1 rfl
  refine ⟨?_, ?_, h3, h4⟩
  · rw [h1.1, h1.2.1 (by norm_num)]
  · rw [h2.1, h2.2.1 (by norm_num)]

/-! Claim C8: BUY and SELL counts in the final trade report.  The
source only prints the side-count lines when the mapping is non-empty,
so an empty trade stream omits them instead of reporting zeros. -/

theorem lookupSide_zero (sides : List (String × Nat)) (k : String)
    (h : k ∉ sides.map (fun p => p.1)) : lookupSide sides k = 0 := by
  induction sides with
  | nil => rfl
  | cons p rest ih =>
    simp only [List.map_cons, List.mem_cons, not_or] at h
    have hne : (decide (p.1 = k)) = false := by
      simp only [decide_eq_false_iff_not]
      exact fun he => h.1 he.symm
    simp only [lookupSide, List.find?, hne]
    exact ih h.2

attribute [local semireducible] Rat.add Rat.mul Rat.inv Rat.sub Rat.ofScientific in
/-- C8 counterexample: on an existing trades file with no records, the
final report omits the BUY and SELL count lines entirely instead of
reporting them as 0 (the claim's "counts are 0 when that side was
never seen" does not hold for the empty stream). -/
theorem claim8_counterexample :
    (read_trades fsTradesEmpty "data/trades.json" none).err = none ∧
    (read_trades fsTradesEmpty "data/trades.json" none).count = 0 ∧
    "Buy trades: 0" ∉ (read_trades fsTradesEmpty "data/trades.json" none).out ∧
    "Sell trades: 0" ∉ (read_trades fsTradesEmpty "data/trades.json" none).out := by
  refine ⟨rfl, rfl, ?_, ?_⟩ <;> decide

/-- C8 amended: whenever at least one trade was aggregated, the final
report prints the BUY and SELL counts, each 0 if that side was never
seen (an unseen label looks up to 0); with no trades at all the two
side-count lines are omitted; producing the report never fails. -/
theorem claim8_side_counts (count : Nat) (volume : ℚ) (sides : List (String × Nat)) :
    (sides.isEmpty = true → trades_final count volume sides =
      ["\n" ++ eqBar, "Total trades: " ++ toString count,
       "Total volume: $" ++ fmt2 volume]) ∧
    (sides.isEmpty = false → trades_final count volume sides =
      ["\n" ++ eqBar, "Total trades: " ++ toString count, "Total volume: $" ++ fmt2 volume,
       "Buy trades: " ++ toString (lookupSide sides "BUY"),
       "Sell trades: " ++ toString (lookupSide sides "SELL")]) ∧
    ("BUY" ∉ sides.map (fun p => p.1) → lookupSide sides "BUY" = 0) ∧
    ("SELL" ∉ sides.map (fun p => p.1) → lookupSide sides "SELL" = 0) := by
  exact ⟨fun h => by simp [trades_final, h], fun h => by simp [trades_final, h],
    fun h => lookupSide_zero sides "BUY" h, fun h => lookupSide_zero sides "SELL" h⟩

/-- Witness for C8: a SELL-only aggregate reports `Buy trades: 0`, and
an empty aggregate omits the side-count lines. -/
theorem claim8_side_counts_witness :
    trades_final 0 0 [] =
      ["\n" ++ eqBar, "Total trades: " ++ toString 0, "Total volume: $" ++ fmt2 0] ∧
    trades_final 1 3 [("SELL", 1)] =
      ["\n" ++ eqBar, "Total trades: " ++ toString 1, "Total volume: $" ++ fmt2 3,
       "Buy trades: " ++ toString (lookupSide [("SELL", 1)] "BUY"),
       "Sell trades: " ++ toString (lookupSide [("SELL", 1)] "SELL")] ∧
    lookupSide [("SELL", 1)] "BUY" = 0 := by
  exact ⟨(claim8_side_counts 0 0 []).1 (by decide),
    (claim8_side_counts 1 3 [("SELL", 1)]).2.1 (by decide),
    (claim8_side_counts 1 3 [("SELL", 1)]).2.2.1 (by decide)⟩

/-! Claim C9: the dataset statistics reporter. -/

/-- C9: for each of the three named datasets, when the backing file
exists the statistics entry reports its full line count and its size
in mebibytes to two decimals; when it does not exist the entry states
that no data exists yet; each entry depends only on that dataset's own
file, so a missing file neither prevents nor alters the other
entries; and the whole report is the banner followed by the three
entries in order. -/
theorem claim9_statistics (fs fs2 : FS) (dataDir : String) (p : String × String)
    (_hp : p ∈ statsDatasets) :
    (∀ fd, fs (dataDir ++ "/" ++ p.2) = some fd →
      statsEntry fs dataDir p =
        ["\n" ++ p.1 ++ ":", "  File: " ++ (dataDir ++ "/" ++ p.2),
         "  Messages: " ++ toString fd.lines.length,
         "  Size: " ++ fmt2 ((fd.sizeBytes : ℚ) / (1024 * 1024)) ++ " MB"]) ∧
    (fs (dataDir ++ "/" ++ p.2) = none →
      statsEntry fs dataDir p = ["\n" ++ p.1 ++ ": No data yet"]) ∧
    (fs (dataDir ++ "/" ++ p.2) = fs2 (dataDir ++ "/" ++ p.2) →
      statsEntry fs dataDir p = statsEntry fs2 dataDir p) ∧
    get_statistics fs dataDir =
      ["\n" ++ eqBar, "DATA STATISTICS", eqBar] ++
        statsDatasets.flatMap (statsEntry fs dataDir) := by
  refine ⟨fun fd hfd => by simp [statsEntry, hfd], fun hfd => by simp [statsEntry, hfd],
    fun hagree => ?_, rfl⟩
  show (match fs (dataDir ++ "/" ++ p.2) with
    | some fd =>
      ["\n" ++ p.1 ++ ":", "  File: " ++ (dataDir ++ "/" ++ p.2),
       "  Messages: " ++ toString fd.lines.length,
       "  Size: " ++ fmt2 ((fd.sizeBytes : ℚ) / (1024 * 1024)) ++ " MB"]
    | none => ["\n" ++ p.1 ++ ": No data yet"]) = _
  rw [hagree]
  rfl

/-- Witness for C9: with snapshots present and trades absent, the
trades entry reports no data while the snapshots entry reports its
line count and size normally. -/
theorem claim9_statistics_witness :
    statsEntry fsStatsMixed "data" ("Trades", "trades.json") = ["\nTrades: No data yet"] ∧
    statsEntry fsStatsMixed "data" ("Orderbook Snapshots", "orderbook_snapshots.json") =
      ["\nOrderbook Snapshots:", "  File: data/orderbook_snapshots.json",
       "  Messages: " ++ toString ([snapLine1, snapLine2].length),
       "  Size: " ++ fmt2 ((262144 : ℚ) / (1024 * 1024)) ++ " MB"] := by
  have h1 := (claim9_statistics fsStatsMixed fsStatsMixed "data" ("Trades", "trades.json")
    (by decide)).2.1 rfl
  have h2 := (claim9_statistics fsStatsMixed fsStatsMixed "data"
    ("Orderbook Snapshots", "orderbook_snapshots.json") (by decide)).1
    ⟨[snapLine1, snapLine2], 262144⟩ rfl
  exact ⟨h1, h2⟩
